import Mathlib

/-!
Shallow embedding of the asniper repository's captcha/booking core
(src/src/captcha.py and src/src/elite_sniper_v2.py), together with
theorems settling the spec claims about it.

Statuses are kept as the literal strings the Python code uses.
Machine time (time.time) is modelled as an integer clock; image bytes as
lists of naturals; page/DOM interactions as environment-supplied data.
-/

namespace Asniper

/-! ## Character and string primitives mirroring the Python string ops -/

/-- The whitespace characters removed by Python's `str.strip()`. -/
def isSpaceChar (c : Char) : Bool :=
  c == ' ' || c == '\t' || c == '\n' || c == '\r' || c == '\x0b' || c == '\x0c'

/-- Python `s.strip()`: drop leading and trailing whitespace. -/
def stripList (l : List Char) : List Char :=
  ((l.dropWhile isSpaceChar).reverse.dropWhile isSpaceChar).reverse

/-- Python `s.strip()` on strings. -/
def pyStrip (s : String) : String := ⟨stripList s.data⟩

/-- Python `s.replace(" ", "")`: remove every space character. -/
def removeSpaces (s : String) : String := ⟨s.data.filter (fun c => c != ' ')⟩

/-- Python `s.lower()` (ASCII case for the captcha alphabet). -/
def toLowerStr (s : String) : String := ⟨s.data.map Char.toLower⟩

/-- The allowed captcha alphabet from `_clean_ocr_result`:
`abcdefghijklmnopqrstuvwxyzABCDEFGHIJKLMNOPQRSTUVWXYZ0123456789`. -/
def isAllowedChar (c : Char) : Bool :=
  ('a' ≤ c && c ≤ 'z') || ('A' ≤ c && c ≤ 'Z') || ('0' ≤ c && c ≤ '9')

/-- Python substring test `needle in hay`. -/
def strContainsSub (hay needle : String) : Bool :=
  hay.data.tails.any (fun t => needle.data.isPrefixOf t)

/-! ## Captcha validator (`EnhancedCaptchaSolver.validate_captcha_result`) -/

/-- The garbage literals from `validate_captcha_result`. -/
def black_patterns : List String := ["4333", "333", "444", "1111", "0000", "4444", "3333"]

/-- Python `len(set(code)) == 1`: the code is one repeated character. -/
def is_all_same (s : String) : Bool := s.data.eraseDups.length == 1

/-- `EnhancedCaptchaSolver.validate_captcha_result`.  The Python function
can fall off the end (implicitly returning `None`), hence the `Option`;
the final branch mirrors `if code_len in [4, 5]`. -/
def validate_captcha_result (code : String) : Option (Bool × String) :=
  if code = "" then some (false, "EMPTY")
  else
    let c := removeSpaces (pyStrip code)
    let code_len := c.length
    if black_patterns.contains c || is_all_same c then some (false, "BLACK_DETECTED")
    else if code_len < 4 then some (false, "TOO_SHORT")
    else if code_len = 6 then some (true, "VALID")
    else if code_len = 7 then some (true, "AGING_7")
    else if code_len = 8 then some (true, "AGING_8")
    else if code_len > 8 then some (false, "TOO_LONG")
    else if code_len = 4 || code_len = 5 then some (false, "TOO_SHORT")
    else none

/-- `EnhancedCaptchaSolver._clean_ocr_result`: strip, drop spaces, and
keep only the allowed alphanumeric characters. -/
def clean_ocr_result (text : String) : String :=
  if text = "" then ""
  else ⟨(removeSpaces (pyStrip text)).data.filter isAllowedChar⟩

/-! ### Small facts about the string primitives -/

theorem dropWhile_eq_self_of_head {p : Char → Bool} :
    ∀ l : List Char, (∀ x ∈ l, p x = false) → l.dropWhile p = l := by
  intro l h
  cases l with
  | nil => rfl
  | cons a t => simp [List.dropWhile_cons, h a (by simp)]

theorem stripList_eq_self {l : List Char} (h : ∀ x ∈ l, isSpaceChar x = false) :
    stripList l = l := by
  have h1 : l.dropWhile isSpaceChar = l := dropWhile_eq_self_of_head l h
  have h2 : l.reverse.dropWhile isSpaceChar = l.reverse :=
    dropWhile_eq_self_of_head l.reverse (fun x hx => h x (List.mem_reverse.mp hx))
  unfold stripList
  rw [h1, h2, List.reverse_reverse]

theorem stripList_eq_nil {l : List Char} (h : ∀ x ∈ l, isSpaceChar x = true) :
    stripList l = [] := by
  have h1 : l.dropWhile isSpaceChar = [] := List.dropWhile_eq_nil_iff.mpr h
  unfold stripList
  rw [h1]
  simp

theorem allowed_not_space {c : Char} (h : isAllowedChar c = true) : isSpaceChar c = false := by
  by_contra hc
  have hsp : isSpaceChar c = true := by
    cases hx : isSpaceChar c with
    | true => rfl
    | false => exact absurd hx hc
  unfold isSpaceChar at hsp
  simp only [Bool.or_eq_true, beq_iff_eq] at hsp
  rcases hsp with ((((h1 | h1) | h1) | h1) | h1) | h1 <;>
    (subst h1; revert h; decide)

theorem allowed_not_space_eq {c : Char} (h : isAllowedChar c = true) : (c != ' ') = true := by
  have := allowed_not_space h
  unfold isSpaceChar at this
  simp only [Bool.or_eq_false_iff] at this
  simpa [bne_iff_ne] using fun hc => by simp [hc] at this

/-- Cleaning is the identity on strings made of allowed characters. -/
theorem clean_eq_self_of_allowed {s : String} (h : ∀ c ∈ s.data, isAllowedChar c = true) :
    removeSpaces (pyStrip s) = s := by
  unfold pyStrip removeSpaces
  have hstrip : stripList s.data = s.data :=
    stripList_eq_self (fun x hx => allowed_not_space (h x hx))
  have : (⟨stripList s.data⟩ : String) = s := by
    cases s with
    | mk data => simpa using congrArg String.mk hstrip
  rw [this]
  have hfilter : s.data.filter (fun c => c != ' ') = s.data :=
    List.filter_eq_self.mpr (fun a ha => allowed_not_space_eq (h a ha))
  cases s with
  | mk data => simpa using congrArg String.mk hfilter

/-- A length-6 string is never one of the garbage literals (all have length 3 or 4). -/
theorem black_patterns_not_len6 {s : String} (h : s.length = 6) :
    black_patterns.contains s = false := by
  have hmem : s ∉ black_patterns := by
    intro hmem
    unfold black_patterns at hmem
    simp only [List.mem_cons, List.not_mem_nil, or_false] at hmem
    rcases hmem with h1 | h1 | h1 | h1 | h1 | h1 | h1 <;> (subst h1; revert h; decide)
  simp [hmem]

/-! ### Claims about the validator -/

/-- C4: any input whose cleaned code is a single repeated character of
length greater than 3 (length 6 included) is rejected as BLACK_DETECTED:
the poisoning check precedes every length-based branch. -/
theorem C4_all_same_over3_black (code : String)
    (hsame : is_all_same (removeSpaces (pyStrip code)) = true)
    (hlen : (removeSpaces (pyStrip code)).length > 3) :
    validate_captcha_result code = some (false, "BLACK_DETECTED") := by
  have hne : code ≠ "" := by
    intro h
    subst h
    exact absurd hlen (by decide)
  unfold validate_captcha_result
  simp only [if_neg hne, hsame, Bool.or_true]
  simp

/-- Witness for C4 at the length-6 input "aaaaaa". -/
theorem C4_witness :
    validate_captcha_result "aaaaaa" = some (false, "BLACK_DETECTED") :=
  C4_all_same_over3_black "aaaaaa" (by decide) (by decide)

/-- C5 fails as stated: "333333" has length 6 and is composed of allowed
characters, yet the validator rejects it as BLACK_DETECTED, not VALID. -/
theorem C5_counterexample :
    validate_captcha_result "333333" = some (false, "BLACK_DETECTED") ∧
      validate_captcha_result "333333" ≠ some (true, "VALID") := by
  constructor <;> decide

/-- C5 amended: every length-6 string of allowed characters that is not a
single repeated character is accepted as VALID. -/
theorem C5_len6_valid (code : String)
    (hlen : code.length = 6)
    (hallowed : ∀ c ∈ code.data, isAllowedChar c = true)
    (hnotsame : is_all_same code = false) :
    validate_captcha_result code = some (true, "VALID") := by
  have hne : code ≠ "" := by
    intro h; subst h; revert hlen; decide
  have hclean : removeSpaces (pyStrip code) = code := clean_eq_self_of_allowed hallowed
  unfold validate_captcha_result
  simp only [if_neg hne, hclean, hlen, hnotsame, black_patterns_not_len6 hlen]
  norm_num

/-- Witness for C5 at the input "abc123". -/
theorem C5_witness :
    validate_captcha_result "abc123" = some (true, "VALID") :=
  C5_len6_valid "abc123" (by decide) (by decide) (by decide)

/-- C6 fails as stated: the whitespace-only input " " is truthy in Python,
skips the EMPTY branch, cleans to the empty string and is rejected as
TOO_SHORT rather than EMPTY. -/
theorem C6_counterexample :
    validate_captcha_result " " = some (false, "TOO_SHORT") ∧
      validate_captcha_result " " ≠ some (false, "EMPTY") := by
  constructor <;> decide

/-- C6 amended: the empty string yields (reject, EMPTY); a non-empty
whitespace-only string yields (reject, TOO_SHORT). -/
theorem C6_empty_and_whitespace :
    validate_captcha_result "" = some (false, "EMPTY") ∧
      ∀ code : String, code ≠ "" → (∀ c ∈ code.data, isSpaceChar c = true) →
        validate_captcha_result code = some (false, "TOO_SHORT") := by
  refine ⟨by decide, ?_⟩
  intro code hne hws
  have hclean : removeSpaces (pyStrip code) = "" := by
    unfold pyStrip removeSpaces
    rw [show (⟨stripList code.data⟩ : String) = "" by
      simpa using congrArg String.mk (stripList_eq_nil hws)]
    rfl
  unfold validate_captcha_result
  simp only [if_neg hne, hclean]
  decide

/-- Witness for C6 at the inputs "" and "  ". -/
theorem C6_witness :
    validate_captcha_result "" = some (false, "EMPTY") ∧
      validate_captcha_result "  " = some (false, "TOO_SHORT") :=
  ⟨C6_empty_and_whitespace.1,
   C6_empty_and_whitespace.2 "  " (by decide) (by decide)⟩

/-- C10: every non-empty code whose cleaned form is a single repeated
character (any length, 1 to 3 included) and the literal "4333" are
rejected as BLACK_DETECTED, never as a length-based status. -/
theorem C10_garbage_any_length (code : String)
    (hne : code ≠ "")
    (h : is_all_same (removeSpaces (pyStrip code)) = true ∨
         removeSpaces (pyStrip code) = "4333") :
    validate_captcha_result code = some (false, "BLACK_DETECTED") := by
  unfold validate_captcha_result
  rcases h with h | h
  · simp only [if_neg hne, h, Bool.or_true]
    simp
  · simp only [if_neg hne, h]
    decide

/-- Witness for C10 at the length-1 input "7" and the literal "4333". -/
theorem C10_witness :
    validate_captcha_result "7" = some (false, "BLACK_DETECTED") ∧
      validate_captcha_result "4333" = some (false, "BLACK_DETECTED") :=
  ⟨C10_garbage_any_length "7" (by decide) (Or.inl (by decide)),
   C10_garbage_any_length "4333" (by decide) (Or.inr (by decide))⟩

/-! ## Captcha controller (`EnhancedCaptchaSolver.solve` and the pre-solved cache) -/

/-- `EnhancedCaptchaSolver.detect_black_captcha`: an image payload below
2000 bytes is a poisoned/black captcha. -/
def detect_black_captcha (image_bytes : List Nat) : Bool :=
  image_bytes.length < 2000

/-- The solver fields consulted by `solve`: `self.manual_only`, whether
`self.ocr` is initialized, and `self.capsolver.enabled`. -/
structure SolverConfig where
  manual_only : Bool
  ocr_present : Bool
  capsolver_enabled : Bool

/-- The external capabilities `solve` delegates to: image preprocessing
(`_preprocess_image`), the CapSolver API (`capsolver.solve_image_to_text`)
and the local ddddocr engine (`ocr.classification`). -/
structure SolveEnv where
  preprocess : List Nat → List Nat
  capsolver_solve : List Nat → String × String
  ocr_classification : List Nat → String

/-- A solving-strategy invocation recorded by the embedding of `solve`. -/
inductive StratCall where
  | capsolverCall : StratCall
  | ocrCall : StratCall
deriving DecidableEq, Repr

/-- `EnhancedCaptchaSolver.solve`, instrumented with the list of strategy
invocations it performs.  Mirrors the source order: manual-mode guard,
missing-OCR guard, black-image size check, preprocessing, CapSolver
attempt, local OCR attempt, else ALL_FAILED. -/
def solve (cfg : SolverConfig) (env : SolveEnv) (image_bytes : List Nat) :
    (String × String) × List StratCall :=
  if cfg.manual_only then (("", "MANUAL_REQUIRED"), [])
  else if !cfg.ocr_present then (("", "NO_OCR"), [])
  else if detect_black_captcha image_bytes then (("", "BLACK_IMAGE"), [])
  else
    let enhanced := env.preprocess image_bytes
    let capRes : Option (String × String) × List StratCall :=
      if cfg.capsolver_enabled then
        let r := env.capsolver_solve enhanced
        if r.1 ≠ "" ∧ r.2 = "SUCCESS" then
          let code2 := clean_ocr_result r.1
          match validate_captcha_result code2 with
          | some (true, _) => (some (code2, "CAPSOLVER"), [.capsolverCall])
          | _ => (none, [.capsolverCall])
        else (none, [.capsolverCall])
      else (none, [])
    match capRes with
    | (some r, calls) => (r, calls)
    | (none, calls) =>
      let result0 := env.ocr_classification enhanced
      let result1 := toLowerStr (pyStrip (removeSpaces result0))
      let result2 := clean_ocr_result result1
      match validate_captcha_result result2 with
      | some (true, st) => ((result2, st), calls ++ [.ocrCall])
      | _ => (("", "ALL_FAILED"), calls ++ [.ocrCall])

/-- A trivial environment used for concrete evaluations. -/
def envTriv : SolveEnv :=
  { preprocess := fun b => b
    capsolver_solve := fun _ => ("", "")
    ocr_classification := fun _ => "" }

/-- C1 fails as stated: with the solver in manual-only mode, a 0-byte
payload (well under the 2000-byte threshold) makes `solve` return
MANUAL_REQUIRED, not BLACK_IMAGE — the mode guards precede the size check.
(No strategy is invoked either way.) -/
theorem C1_counterexample :
    List.length ([] : List Nat) < 2000 ∧
      solve ⟨true, true, false⟩ envTriv [] = (("", "MANUAL_REQUIRED"), []) ∧
      (solve ⟨true, true, false⟩ envTriv []).1.2 ≠ "BLACK_IMAGE" := by
  refine ⟨by decide, rfl, by decide⟩

/-- C1 amended: whenever the solver is not in manual-only mode and the OCR
engine is initialized, every payload strictly below 2000 bytes makes
`solve` return status BLACK_IMAGE with an empty code and with no strategy
invocation (neither CapSolver nor local OCR). -/
theorem C1_black_image_gate (cfg : SolverConfig) (env : SolveEnv) (image_bytes : List Nat)
    (hmode : cfg.manual_only = false) (hocr : cfg.ocr_present = true)
    (hsize : image_bytes.length < 2000) :
    solve cfg env image_bytes = (("", "BLACK_IMAGE"), []) := by
  unfold solve detect_black_captcha
  simp [hmode, hocr, hsize]

/-- Witness for C1 at a concrete config, environment and payload. -/
theorem C1_witness :
    solve ⟨false, true, true⟩ envTriv [0, 1, 2] = (("", "BLACK_IMAGE"), []) :=
  C1_black_image_gate ⟨false, true, true⟩ envTriv [0, 1, 2] rfl rfl (by decide)

/-! ### Pre-solved cache -/

/-- The cache fields of `EnhancedCaptchaSolver`: `_pre_solved_code`,
`_pre_solved_time` and `_pre_solved_status` (the latter may be unset,
read through `getattr(..., 'VALID')`). -/
structure CacheState where
  pre_solved_code : Option String
  pre_solved_time : Int
  pre_solved_status : Option String
deriving DecidableEq, Repr

/-- `self._pre_solve_timeout` (30 seconds). -/
def pre_solve_timeout : Int := 30

/-- Python truthiness of `Optional[str]`: `None` and `""` are falsy. -/
def pyFalsyOptStr : Option String → Bool
  | none => true
  | some s => s = ""

/-- `EnhancedCaptchaSolver.get_pre_solved`, with the wall clock passed
explicitly.  Returns the code (or none) and the updated cache state. -/
def get_pre_solved (st : CacheState) (now : Int) : Option String × CacheState :=
  if pyFalsyOptStr st.pre_solved_code then (none, st)
  else if now - st.pre_solved_time > pre_solve_timeout then
    (none, { st with pre_solved_code := none })
  else (st.pre_solved_code, st)

/-- `EnhancedCaptchaSolver.clear_pre_solved`. -/
def clear_pre_solved (st : CacheState) : CacheState :=
  { st with pre_solved_code := none, pre_solved_time := 0 }

/-- The page-dependent inputs of `pre_solve`: the result of
`safe_captcha_check` and of `_get_captcha_image`. -/
structure PreSolveEnv where
  check : Bool × Bool
  image : Option (List Nat)

/-- `EnhancedCaptchaSolver.pre_solve`: check for a captcha, grab the
image, solve it, and cache a non-empty result with the current time. -/
def pre_solve (cfg : SolverConfig) (env : SolveEnv) (penv : PreSolveEnv)
    (st : CacheState) (now : Int) : (Bool × Option String × String) × CacheState :=
  let has_captcha := penv.check.1
  let check_ok := penv.check.2
  if !check_ok then ((false, none, "CHECK_FAILED"), st)
  else if !has_captcha then ((true, none, "NO_CAPTCHA"), st)
  else
    match penv.image with
    | none => ((false, none, "NO_IMAGE"), st)
    | some image_bytes =>
      if image_bytes.isEmpty then ((false, none, "NO_IMAGE"), st)
      else
        let r := (solve cfg env image_bytes).1
        if r.1 = "" then ((false, none, r.2), st)
        else ((true, some r.1, r.2), ⟨some r.1, now, some r.2⟩)

/-- The pre-solved consumption snippet of
`EnhancedCaptchaSolver.solve_from_page`: read the cache and, when a
truthy code comes back, clear it. -/
def consume_pre_solved (st : CacheState) (now : Int) : Option String × CacheState :=
  let r := get_pre_solved st now
  match r.1 with
  | some c => if c = "" then (none, r.2) else (some c, clear_pre_solved r.2)
  | none => (none, r.2)

/-- C7 fails as stated: `get_pre_solved` does not consume the entry on a
fresh read; a second read 10 seconds later still returns the cached code. -/
theorem C7_counterexample :
    (get_pre_solved ⟨some "abc123", 0, some "VALID"⟩ 10).1 = some "abc123" ∧
      (get_pre_solved ⟨some "abc123", 0, some "VALID"⟩ 10).2.pre_solved_code ≠ none ∧
      (get_pre_solved ((get_pre_solved ⟨some "abc123", 0, some "VALID"⟩ 10).2) 20).1
        = some "abc123" := by
  refine ⟨rfl, by decide, rfl⟩

/-- C7 amended: the cache is a single (code, timestamp) entry with a fixed
30-second expiry.  A read at most 30 seconds after storage returns the
code and leaves the entry in place — the consuming caller
(`solve_from_page`) clears it right after a successful read; a read more
than 30 seconds after storage clears the code and returns nothing; every
`pre_solve` that obtains a non-empty code overwrites the entry with the
current time. -/
theorem C7_cache_semantics :
    (∀ (st : CacheState) (now : Int) (c : String),
        st.pre_solved_code = some c → c ≠ "" → now - st.pre_solved_time ≤ 30 →
        get_pre_solved st now = (some c, st)) ∧
    (∀ (st : CacheState) (now : Int) (c : String),
        st.pre_solved_code = some c → c ≠ "" → now - st.pre_solved_time > 30 →
        get_pre_solved st now = (none, { st with pre_solved_code := none })) ∧
    (∀ (st : CacheState) (now : Int) (c : String),
        st.pre_solved_code = some c → c ≠ "" → now - st.pre_solved_time ≤ 30 →
        consume_pre_solved st now = (some c, clear_pre_solved st)) ∧
    (∀ (cfg : SolverConfig) (env : SolveEnv) (img : List Nat) (st : CacheState) (now : Int),
        img ≠ [] → (solve cfg env img).1.1 ≠ "" →
        pre_solve cfg env ⟨(true, true), some img⟩ st now =
          ((true, some (solve cfg env img).1.1, (solve cfg env img).1.2),
           ⟨some (solve cfg env img).1.1, now, some (solve cfg env img).1.2⟩)) := by
  have hfresh : ∀ (st : CacheState) (now : Int) (c : String),
      st.pre_solved_code = some c → c ≠ "" → now - st.pre_solved_time ≤ 30 →
      get_pre_solved st now = (some c, st) := by
    intro st now c hc hcne hage
    unfold get_pre_solved pyFalsyOptStr
    rw [hc]
    simp only [decide_eq_true_eq]
    rw [if_neg hcne, if_neg (by unfold pre_solve_timeout; omega)]
  refine ⟨hfresh, ?_, ?_, ?_⟩
  · intro st now c hc hcne hage
    unfold get_pre_solved pyFalsyOptStr
    rw [hc]
    simp only [decide_eq_true_eq]
    rw [if_neg hcne, if_pos (by unfold pre_solve_timeout; omega)]
  · intro st now c hc hcne hage
    unfold consume_pre_solved
    rw [hfresh st now c hc hcne hage]
    simp [hcne]
  · intro cfg env img st now himg hcode
    unfold pre_solve
    simp only [List.isEmpty_iff, if_neg himg, if_neg hcode]
    rfl

/-- An environment whose local OCR reads "ab12cd", for concrete runs. -/
def envOcrOk : SolveEnv :=
  { preprocess := fun b => b
    capsolver_solve := fun _ => ("", "")
    ocr_classification := fun _ => "ab12cd" }

/-- A normal-sized (2000-byte) image payload. -/
def bigImage : List Nat := List.replicate 2000 0

theorem bigImage_ne_nil : bigImage ≠ [] := by
  have h : bigImage.length = 2000 := by
    rw [bigImage, List.length_replicate]
  intro hn
  rw [hn] at h
  exact absurd h (by decide)

theorem solveOcrOk :
    solve ⟨false, true, false⟩ envOcrOk bigImage = (("ab12cd", "VALID"), [.ocrCall]) := by
  have hlen : detect_black_captcha bigImage = false := by
    unfold detect_black_captcha
    rw [bigImage, List.length_replicate]
    decide
  unfold solve
  rw [hlen]
  rfl

/-- Witness for C7 at concrete cache states and inputs. -/
theorem C7_witness :
    get_pre_solved ⟨some "xy12ab", 100, some "VALID"⟩ 120
        = (some "xy12ab", ⟨some "xy12ab", 100, some "VALID"⟩) ∧
      get_pre_solved ⟨some "xy12ab", 100, some "VALID"⟩ 131 = (none, ⟨none, 100, some "VALID"⟩) ∧
      consume_pre_solved ⟨some "xy12ab", 100, some "VALID"⟩ 120
        = (some "xy12ab", ⟨none, 0, some "VALID"⟩) ∧
      pre_solve ⟨false, true, false⟩ envOcrOk ⟨(true, true), some bigImage⟩ ⟨none, 0, none⟩ 7 =
        ((true, some "ab12cd", "VALID"), ⟨some "ab12cd", 7, some "VALID"⟩) := by
  refine ⟨C7_cache_semantics.1 _ 120 "xy12ab" rfl (by decide) (by decide),
          C7_cache_semantics.2.1 _ 131 "xy12ab" rfl (by decide) (by decide),
          C7_cache_semantics.2.2.1 _ 120 "xy12ab" rfl (by decide) (by decide),
          ?_⟩
  have h := C7_cache_semantics.2.2.2 ⟨false, true, false⟩ envOcrOk bigImage ⟨none, 0, none⟩ 7
      bigImage_ne_nil (by rw [solveOcrOk]; decide)
  rw [h, solveOcrOk]

/-! ## Page state classifier (`EliteSniperV2._analyze_page_state`) -/

/-- The page observations `_analyze_page_state` makes: the raw page
content, the count of `a[href*='appointment_showDay']` locator matches
and the visibility of the error banner and captcha elements. -/
structure PageView where
  content : String
  dayLinkCount : Nat
  globalErrorVisible : Bool
  captchaMonthVisible : Bool
  captchaInputVisible : Bool

/-- `EliteSniperV2._analyze_page_state`: priority-ordered classification
of the lower-cased page content into SLOTS_FOUND / EMPTY_CALENDAR /
WRONG_CODE / CAPTCHA / UNKNOWN. -/
def analyze_page_state (p : PageView) : String :=
  let content := toLowerStr p.content
  if p.dayLinkCount > 0 then "SLOTS_FOUND"
  else if strContainsSub content "unfortunately, there are no appointments available" then
    "EMPTY_CALENDAR"
  else if strContainsSub content "keine termine" then "EMPTY_CALENDAR"
  else if strContainsSub content "no appointments" &&
      !(strContainsSub content "appointment_showDay") then "EMPTY_CALENDAR"
  else if strContainsSub content "entered text was wrong" then "WRONG_CODE"
  else if p.globalErrorVisible then "WRONG_CODE"
  else if p.captchaMonthVisible then "CAPTCHA"
  else if p.captchaInputVisible then "CAPTCHA"
  else "UNKNOWN"

/-- C8: a page with at least one day-available link is classified
SLOTS_FOUND no matter what else the content holds — the day-link check
has the highest priority. -/
theorem C8_day_link_priority (p : PageView) (h : p.dayLinkCount > 0) :
    analyze_page_state p = "SLOTS_FOUND" := by
  unfold analyze_page_state
  rw [if_pos h]

/-- Witness for C8 on a page carrying both a day-available link and the
"no appointments" phrase. -/
theorem C8_witness :
    analyze_page_state
      ⟨"<a href=appointment_showDay.do>x</a> unfortunately, there are no appointments available",
        1, false, false, false⟩ = "SLOTS_FOUND" :=
  C8_day_link_priority _ (by decide)

/-! ## Booking flow (`EliteSniperV2._process_month_page` and `_run_single_session`) -/

/-- The events of one month-page captcha loop, as emitted by the
embedding of `_process_month_page`. -/
inductive MonthEvent where
  | navigated : MonthEvent
  | navFailed : MonthEvent
  | reloadCaptcha : Bool → MonthEvent
  | pageReload : MonthEvent
  | classify : String → MonthEvent
  | solveCall : Bool → Option String → String → MonthEvent
  | submitted : MonthEvent
deriving DecidableEq, Repr

/-- The page-dependent behaviour of one iteration of the month-scan
captcha loop: whether the reload control is found, what the page looks
like when re-classified, the day links found on SLOTS_FOUND, the outcome
of `_process_day_page`, and the result of `solve_from_page`. -/
structure AttemptEnv where
  reload_ok : Bool
  page : PageView
  dayLinks : List (Option String)
  dayResult : Bool
  solveRes : Bool × Option String × String

/-- The captcha loop of `_process_month_page` (`for attempt in
range(max_attempts)`), by recursion on the remaining attempts; running
out of attempts returns False.  Python truthiness of the solved code
(`not code`) treats both None and "" as missing. -/
def month_attempts (envs : Nat → AttemptEnv) : Nat → Nat → Bool × List MonthEvent
  | _, 0 => (false, [])
  | attempt, rem + 1 =>
    let env := envs attempt
    let pre : List MonthEvent :=
      if attempt > 0 then
        if env.reload_ok then [.reloadCaptcha true] else [.reloadCaptcha false, .pageReload]
      else []
    let state := analyze_page_state env.page
    let evs := pre ++ [.classify state]
    if state = "SLOTS_FOUND" then
      match env.dayLinks with
      | [] => (false, evs)
      | href :: _ =>
        match href with
        | some h => if h = "" then (false, evs) else (env.dayResult, evs)
        | none => (false, evs)
    else if state = "EMPTY_CALENDAR" then (false, evs)
    else
      let r := env.solveRes
      let sev : MonthEvent := .solveCall r.1 r.2.1 r.2.2
      if r.2.2 = "BLACK_IMAGE" then (false, evs ++ [sev])
      else if r.1 = false ∨ r.2.1 = none ∨ r.2.1 = some "" then
        let rest := month_attempts envs (attempt + 1) rem
        (rest.1, evs ++ [sev, .pageReload] ++ rest.2)
      else
        let rest := month_attempts envs (attempt + 1) rem
        (rest.1, evs ++ [sev, .submitted] ++ rest.2)

/-- `max_attempts` in `_process_month_page`. -/
def month_max_attempts : Nat := 5

/-- The whole captcha loop, started at attempt 0 with 5 attempts. -/
def month_loop (envs : Nat → AttemptEnv) : Bool × List MonthEvent :=
  month_attempts envs 0 month_max_attempts

/-- The per-month environment of `_process_month_page`: whether
navigation (two tries) eventually succeeds, and the per-attempt
behaviours. -/
structure MonthEnv where
  nav_ok : Bool
  attempts : Nat → AttemptEnv

/-- `EliteSniperV2._process_month_page`: navigate (two tries; failure
increments the consecutive-network-failure counter and gives up on the
month), then run the captcha loop with the counter reset to 0. -/
def process_month_page (menv : MonthEnv) (netFailures : Nat) :
    Bool × Nat × List MonthEvent :=
  if menv.nav_ok then
    let r := month_loop menv.attempts
    (r.1, 0, .navigated :: r.2)
  else (false, netFailures + 1, [.navFailed])

/-! ### The single-session scan cycle (`EliteSniperV2._run_single_session`) -/

/-- Modelled from the spec: `SessionState` (src/src/session_state.py is
not in the sources given; only its callers are).  Per the spec's data
model, a session tracks its creation timestamp and failure counters, and
`age = now − created`.  `gen` counts `create_context` calls (the spec's
observable "new session identifier": a fresh SessionState object with a
fresh creation time; `global_stats.rebirths` is incremented alongside). -/
structure SessionSt where
  gen : Nat
  created : Int
  netFailures : Nat
deriving DecidableEq, Repr

/-- Events of a session run: month-page events tagged with the session
generation and the wall-clock time at the start of that month URL, and
session rebirths. -/
inductive SessEvent where
  | month : Nat → Int → MonthEvent → SessEvent
  | rebirth : Nat → Nat → Int → SessEvent
deriving DecidableEq, Repr

/-- `Config.SESSION_MAX_AGE` (300 seconds); also passed to every
SessionState as `max_age=300` in `create_context`. -/
def sessionMaxAge : Int := 300

/-- The result of (part of) a scan cycle. -/
structure CycleRes where
  done : Bool
  st : SessionSt
  t : Int
  trace : List SessEvent
deriving DecidableEq, Repr

/-- The `for url in month_urls` loop of `_run_single_session`: process
each month page, stop the whole run on a booking success, and trip the
circuit breaker (skip the remaining URLs) once the consecutive network
failure counter reaches 2.  Each URL's processing consumes the
environment-given wall-clock duration. -/
def cycle_urls (st : SessionSt) (t : Int) : List (MonthEnv × Int) → CycleRes
  | [] => ⟨false, st, t, []⟩
  | (menv, dur) :: rest =>
    let r := process_month_page menv st.netFailures
    let evs := r.2.2.map (fun e => SessEvent.month st.gen t e)
    let st1 : SessionSt := { st with netFailures := r.2.1 }
    let t1 := t + dur
    if r.1 then ⟨true, st1, t1, evs⟩
    else if st1.netFailures ≥ 2 then ⟨false, st1, t1, evs⟩
    else
      let c := cycle_urls st1 t1 rest
      ⟨c.done, c.st, c.t, evs ++ c.trace⟩

/-- The end-of-cycle session reset of `_run_single_session`: once the
session age exceeds `SESSION_MAX_AGE` or two consecutive network
failures accumulated, the page and context are closed and
`create_context` builds a fresh session (new generation, fresh creation
time, counters reset). -/
def rebirth_check (st : SessionSt) (t : Int) : SessionSt × List SessEvent :=
  if t - st.created > sessionMaxAge ∨ st.netFailures ≥ 2 then
    (⟨st.gen + 1, t, 0⟩, [.rebirth st.gen (st.gen + 1) t])
  else (st, [])

/-- The environment of one scan cycle: the generated month URLs (their
per-month behaviour and wall-clock duration) and the end-of-cycle sleep. -/
structure CycleEnv where
  urls : List (MonthEnv × Int)
  cycleSleep : Int

/-- One iteration of the `for cycle in range(max_cycles)` loop of
`_run_single_session`: scan the month URLs, then sleep, then run the
age/network-failure session reset check. -/
def run_cycle (env : CycleEnv) (st : SessionSt) (t : Int) : CycleRes :=
  let r := cycle_urls st t env.urls
  if r.done then r
  else
    let t2 := r.t + env.cycleSleep
    let rb := rebirth_check r.st t2
    ⟨false, rb.1, t2, r.trace ++ rb.2⟩

/-! ### Trace scanners -/

def isReloadEv : MonthEvent → Bool
  | .reloadCaptcha _ => true
  | .pageReload => true
  | _ => false

def isClassifyEv : MonthEvent → Bool
  | .classify _ => true
  | _ => false

/-- Number of page-state classifications in a month trace (one per loop
attempt). -/
def classifyCount (evs : List MonthEvent) : Nat := evs.countP isClassifyEv

/-- Checks that in a month trace every classification after the first is
preceded, since the previous classification, by a successful captcha
reload or by a failed captcha reload followed by a full page reload. -/
def segmentsOkAux : List MonthEvent → Bool → Bool → Bool → Bool → Bool
  | [], _, _, _, _ => true
  | .classify _ :: rest, seen, rT, rF, pR =>
    (!seen || rT || (rF && pR)) && segmentsOkAux rest true false false false
  | .reloadCaptcha true :: rest, seen, _, rF, pR => segmentsOkAux rest seen true rF pR
  | .reloadCaptcha false :: rest, seen, rT, _, pR => segmentsOkAux rest seen rT true pR
  | .pageReload :: rest, seen, rT, rF, _ => segmentsOkAux rest seen rT rF true
  | _ :: rest, seen, rT, rF, pR => segmentsOkAux rest seen rT rF pR

def segmentsOk (evs : List MonthEvent) : Bool := segmentsOkAux evs false false false false

/-- After a captcha solve reporting BLACK_IMAGE, does a later captcha
solve happen in the same session (same generation) before that session
is reborn? -/
def after_black_solve (g : Nat) : List SessEvent → Bool
  | [] => false
  | .rebirth og _ _ :: rest => if og = g then false else after_black_solve g rest
  | .month g' _ (.solveCall _ _ _) :: rest => g' = g || after_black_solve g rest
  | _ :: rest => after_black_solve g rest

def black_then_solve : List SessEvent → Bool
  | [] => false
  | .month g _ (.solveCall _ _ status) :: rest =>
    if status = "BLACK_IMAGE" then after_black_solve g rest else black_then_solve rest
  | _ :: rest => black_then_solve rest

/-- Does the original session (generation `g`) navigate at a wall-clock
time when its age already exceeds `maxAge`?  Since rebirth bumps the
generation, such an event is a navigation of an over-age session that
happened without a preceding rebirth. -/
def navWhileExpired (g : Nat) (created maxAge : Int) : List SessEvent → Bool
  | [] => false
  | .month g' tm .navigated :: rest =>
    (g' = g && tm - created > maxAge) || navWhileExpired g created maxAge rest
  | _ :: rest => navWhileExpired g created maxAge rest

/-! ### Structural lemmas about the loops -/

/-- A loop attempt that keeps the captcha loop going: the page is neither
a success nor an empty calendar, and the solve did not report a black
image. -/
def contCond (env : AttemptEnv) : Prop :=
  analyze_page_state env.page ≠ "SLOTS_FOUND" ∧
  analyze_page_state env.page ≠ "EMPTY_CALENDAR" ∧
  env.solveRes.2.2 ≠ "BLACK_IMAGE"

theorem month_attempts_classify_le (envs : Nat → AttemptEnv) :
    ∀ rem attempt, classifyCount (month_attempts envs attempt rem).2 ≤ rem := by
  intro rem
  induction rem with
  | zero =>
    intro attempt
    simp [month_attempts, classifyCount]
  | succ n ih =>
    intro attempt
    have ihn := ih (attempt + 1)
    unfold classifyCount at ihn ⊢
    simp only [month_attempts]
    repeat' split
    all_goals
      simp_all [List.countP_append, List.countP_cons, isClassifyEv]
    all_goals omega

theorem month_attempts_segments (envs : Nat → AttemptEnv) :
    ∀ rem attempt seen rT rF pR,
      (0 < attempt ∨ (!seen || rT || (rF && pR)) = true) →
      segmentsOkAux (month_attempts envs attempt rem).2 seen rT rF pR = true := by
  intro rem
  induction rem with
  | zero =>
    intro attempt seen rT rF pR _
    simp [month_attempts, segmentsOkAux]
  | succ n ih =>
    intro attempt seen rT rF pR h
    simp only [month_attempts]
    rcases Nat.eq_zero_or_pos attempt with hz | hp
    · subst hz
      have hflags : (!seen || rT || (rF && pR)) = true := by
        rcases h with h | h
        · omega
        · exact h
      simp only [gt_iff_lt, Nat.lt_irrefl, if_false]
      repeat' split
      all_goals
        simp_all [segmentsOkAux, List.nil_append]
      all_goals
        exact ih (0 + 1) true false false false (Or.inl (by omega))
    · simp only [gt_iff_lt, if_pos hp]
      repeat' split
      all_goals
        simp_all [segmentsOkAux]
      all_goals
        exact ih (attempt + 1) true false false false (Or.inl (by omega))

theorem month_attempts_exhaust (envs : Nat → AttemptEnv)
    (h : ∀ k, k < month_max_attempts → contCond (envs k)) :
    ∀ rem attempt, attempt + rem ≤ month_max_attempts →
      (month_attempts envs attempt rem).1 = false := by
  intro rem
  induction rem with
  | zero =>
    intro attempt _
    simp [month_attempts]
  | succ n ih =>
    intro attempt hle
    obtain ⟨h1, h2, h3⟩ := h attempt (by unfold month_max_attempts at hle ⊢; omega)
    simp only [month_attempts]
    rw [if_neg h1, if_neg h2, if_neg h3]
    split_ifs
    all_goals exact ih (attempt + 1) (by unfold month_max_attempts at hle ⊢; omega)

theorem cycle_urls_preserves (urls : List (MonthEnv × Int)) :
    ∀ (st : SessionSt) (t : Int),
      (cycle_urls st t urls).st.gen = st.gen ∧ (cycle_urls st t urls).st.created = st.created := by
  induction urls with
  | nil => intro st t; exact ⟨rfl, rfl⟩
  | cons u rest ih =>
    intro st t
    obtain ⟨menv, dur⟩ := u
    simp only [cycle_urls]
    split_ifs with h1 h2
    · exact ⟨rfl, rfl⟩
    · exact ⟨rfl, rfl⟩
    · exact ih _ _

/-! ### Claims about the booking flow -/

/-- C2: the month-scan captcha loop performs at most 5 attempts; every
re-classification after the first is preceded by a forced captcha reload
(or, when the reload control is not found, a full page reload); when all
5 attempts neither find slots, nor hit an empty calendar, nor see a black
image, the month handler returns false; and the session survives a month
failure — the URL loop never changes the session generation. -/
theorem C2_month_scan_loop (envs : Nat → AttemptEnv) :
    classifyCount (month_loop envs).2 ≤ 5 ∧
    segmentsOk (month_loop envs).2 = true ∧
    ((∀ k, k < month_max_attempts → contCond (envs k)) → (month_loop envs).1 = false) ∧
    (∀ (urls : List (MonthEnv × Int)) (st : SessionSt) (t : Int),
      (cycle_urls st t urls).st.gen = st.gen) := by
  refine ⟨month_attempts_classify_le envs month_max_attempts 0,
          month_attempts_segments envs month_max_attempts 0 false false false false
            (Or.inr (by decide)), ?_, ?_⟩
  · intro h
    exact month_attempts_exhaust envs h month_max_attempts 0 (by decide)
  · intro urls st t
    exact (cycle_urls_preserves urls st t).1

/-- A captcha page: classified CAPTCHA by `_analyze_page_state`. -/
def pageCaptcha : PageView := ⟨"please enter the security code", 0, false, false, true⟩

/-- An empty-calendar page. -/
def pageEmpty : PageView :=
  ⟨"unfortunately, there are no appointments available", 0, false, false, false⟩

/-- Attempt behaviour: captcha page, solve succeeds with a valid code. -/
def attemptSolve : AttemptEnv := ⟨true, pageCaptcha, [], false, (true, some "ab12cd", "VALID")⟩

/-- Attempt behaviour: captcha page, solve reports a black image. -/
def attemptBlack : AttemptEnv := ⟨true, pageCaptcha, [], false, (false, none, "BLACK_IMAGE")⟩

/-- Attempt behaviour: empty calendar. -/
def attemptEmpty : AttemptEnv := ⟨true, pageEmpty, [], false, (true, none, "NO_CAPTCHA")⟩

/-- Witness for C2 at a concrete environment that keeps failing. -/
theorem C2_witness :
    classifyCount (month_loop (fun _ => attemptSolve)).2 ≤ 5 ∧
      segmentsOk (month_loop (fun _ => attemptSolve)).2 = true ∧
      (month_loop (fun _ => attemptSolve)).1 = false ∧
      (cycle_urls ⟨0, 0, 0⟩ 0 []).st.gen = 0 := by
  obtain ⟨h1, h2, h3, h4⟩ := C2_month_scan_loop (fun _ => attemptSolve)
  exact ⟨h1, h2, h3 (fun k _ => ⟨by decide, by decide, by decide⟩), h4 [] ⟨0, 0, 0⟩ 0⟩

/-- The C3 scenario: a cycle whose first month URL sees a black-image
solve and whose second month URL is a normal captcha page. -/
def envC3 : CycleEnv := ⟨[(⟨true, fun _ => attemptBlack⟩, 70), (⟨true, fun _ => attemptSolve⟩, 10)], 5⟩

/-- C3 evaluated on the code: after the captcha solve reports BLACK_IMAGE
on the first month URL, the very same session (generation 0, never
reborn during the cycle) attempts further captcha solves on the next
month URL — the session is not abandoned. -/
theorem C3_black_image_not_session_fatal :
    black_then_solve (run_cycle envC3 ⟨0, 0, 0⟩ 0).trace = true ∧
      (run_cycle envC3 ⟨0, 0, 0⟩ 0).st.gen = 0 := by
  constructor <;> decide

/-- The C9 counterexample scenario: the first month URL takes 301 seconds
to process, so the second URL is navigated at age 301 > 300. -/
def envC9 : CycleEnv := ⟨[(⟨true, fun _ => attemptEmpty⟩, 301), (⟨true, fun _ => attemptEmpty⟩, 1)], 1⟩

/-- C9 fails as stated: a session created at time 0 navigates to the
second month URL at time 301 — with its age already above the 300-second
ceiling — while still in generation 0, i.e. before any rebirth: the age
check only runs at the end of a scan cycle, not before every navigation. -/
theorem C9_counterexample :
    navWhileExpired 0 0 300 (run_cycle envC9 ⟨0, 0, 0⟩ 0).trace = true := by
  decide

/-- C9 amended: the session-reset check runs once per scan cycle, after
the URL loop and the cycle sleep.  If at that point the session age
exceeds 300 seconds or two consecutive network failures have
accumulated, the context is discarded and a fresh session (new
generation, fresh creation time, counters reset) is created before the
next cycle's navigation; and once the network-failure counter reaches 2
the circuit breaker skips the remaining URLs of the cycle, so no further
navigation happens before that reset. -/
theorem C9_rebirth_at_cycle_end :
    (∀ (st : SessionSt) (t : Int),
        t - st.created > sessionMaxAge ∨ st.netFailures ≥ 2 →
        rebirth_check st t = (⟨st.gen + 1, t, 0⟩, [.rebirth st.gen (st.gen + 1) t])) ∧
    (∀ (env : CycleEnv) (st : SessionSt) (t : Int),
        (cycle_urls st t env.urls).done = false →
        ((cycle_urls st t env.urls).t + env.cycleSleep - st.created > sessionMaxAge ∨
          (cycle_urls st t env.urls).st.netFailures ≥ 2) →
        (run_cycle env st t).st = ⟨st.gen + 1, (cycle_urls st t env.urls).t + env.cycleSleep, 0⟩ ∧
          (run_cycle env st t).trace = (cycle_urls st t env.urls).trace ++
            [.rebirth st.gen (st.gen + 1) ((cycle_urls st t env.urls).t + env.cycleSleep)]) ∧
    (∀ (menv : MonthEnv) (dur : Int) (rest : List (MonthEnv × Int)) (st : SessionSt) (t : Int),
        (process_month_page menv st.netFailures).2.1 ≥ 2 →
        cycle_urls st t ((menv, dur) :: rest) = cycle_urls st t [(menv, dur)]) := by
  have hrb : ∀ (st : SessionSt) (t : Int),
      t - st.created > sessionMaxAge ∨ st.netFailures ≥ 2 →
      rebirth_check st t = (⟨st.gen + 1, t, 0⟩, [.rebirth st.gen (st.gen + 1) t]) := by
    intro st t h
    unfold rebirth_check
    rw [if_pos h]
  refine ⟨hrb, ?_, ?_⟩
  · intro env st t hdone hcond
    obtain ⟨hgen, hcreated⟩ := cycle_urls_preserves env.urls st t
    simp only [run_cycle, hdone, Bool.false_eq_true, if_false]
    rw [hrb (cycle_urls st t env.urls).st ((cycle_urls st t env.urls).t + env.cycleSleep)
        (by rw [hcreated]; exact hcond)]
    rw [hgen]
    exact ⟨rfl, rfl⟩
  · intro menv dur rest st t h
    simp only [cycle_urls]
    split_ifs with h1
    · rfl
    · rfl

/-- A month whose navigation fails (network failure). -/
def menvNavFail : MonthEnv := ⟨false, fun _ => attemptEmpty⟩

/-- Witness for C9 at concrete sessions and cycle environments. -/
theorem C9_witness :
    rebirth_check ⟨0, 0, 0⟩ 301 = (⟨1, 301, 0⟩, [.rebirth 0 1 301]) ∧
      (run_cycle envC9 ⟨0, 0, 0⟩ 0).st = ⟨1, (cycle_urls ⟨0, 0, 0⟩ 0 envC9.urls).t + envC9.cycleSleep, 0⟩ ∧
      cycle_urls ⟨0, 0, 1⟩ 0 [(menvNavFail, 1), (⟨true, fun _ => attemptEmpty⟩, 1)] =
        cycle_urls ⟨0, 0, 1⟩ 0 [(menvNavFail, 1)] := by
  refine ⟨C9_rebirth_at_cycle_end.1 ⟨0, 0, 0⟩ 301 (by decide), ?_, ?_⟩
  · exact (C9_rebirth_at_cycle_end.2.1 envC9 ⟨0, 0, 0⟩ 0 (by decide) (by decide)).1
  · exact C9_rebirth_at_cycle_end.2.2 menvNavFail 1 [(⟨true, fun _ => attemptEmpty⟩, 1)]
      ⟨0, 0, 1⟩ 0 (by decide)

end Asniper
